import Mathlib

/-!
Verification of the pharmacy claims analytics pipeline (`src/main.py`).

Shallow embedding conventions:
* A pandas `DataFrame` of claims is a `List Claim`; a row's `price` and
  `quantity` fields hold the result of `pd.to_numeric(·, errors='coerce')`
  applied to the raw cell: `some q` when the raw value coerces to the
  number `q`, `none` when the cell is missing/NaN or fails to coerce
  (`dropna` then removes exactly the `none` rows).  Identifier columns
  (`id`, `npi`, `ndc`, `claim_id`, `chain`) are opaque strings.
* Decimal numbers are modelled by `ℚ`; `Series.round(2)` is modelled by
  `round2` (round half away from zero at the second decimal; the spec
  accepts either half-up or banker's rounding, and the two agree on every
  property proved here).
* `pandas` raises `KeyError` when a column named by the code is absent
  from a dataframe.  The two column accesses that main's own checks do
  not guard are `reverts_df['claim_id']` (line 44) and the `'chain'`
  grouping key (line 87); they are modelled by `RevertsDF` being an
  `Option` and by `PharmacyDF.hasChain`.
* `DataFrame.sort_values` sorts by the named key with an unspecified
  order among ties; it is modelled by `List.insertionSort`, one concrete
  representative of the sorted-by-key arrangements.  `groupby(k).head(n)`
  keeps, per group, the first `n` rows in the current row order, which
  for a table sorted on the aggregation value equals sorting each group
  and taking `n`.
-/

namespace PharmaPipeline

/-- A row of the claims dataframe as it reaches the three goal functions:
`main` (line 139) has already dropped rows with missing `npi`/`id`, and rows
with a missing `ndc` belong to no `groupby` key in any goal (pandas drops
NaN group keys), so they influence no output. -/
structure Claim where
  id : String
  npi : String
  ndc : String
  price : Option ℚ
  quantity : Option ℚ
deriving DecidableEq, Repr

/-- A row of the pharmacy dataframe: `npi` and `chain` columns. -/
structure Pharmacy where
  npi : String
  chain : String
deriving DecidableEq, Repr

/-- A claim that survived the revert/coercion/positivity filter of
`calculate_goal_2_metrics` lines 44-50 (resp. the identical
`calculate_goal_3_recommendations` lines 78-83), with its derived
`unit_price` column. -/
structure ValidClaim where
  id : String
  npi : String
  ndc : String
  price : ℚ
  quantity : ℚ
  unit_price : ℚ
deriving DecidableEq, Repr

/-- An output row of `calculate_goal_2_metrics`. -/
structure FillMetric where
  npi : String
  ndc : String
  fills : ℕ
  reverted : ℕ
  avg_price : ℚ
  total_price : ℚ
deriving DecidableEq, Repr

/-- One `{name, avg_price}` entry of a Goal 3 chain list. -/
structure ChainAvg where
  name : String
  avg_price : ℚ
deriving DecidableEq, Repr

/-- An output record of `calculate_goal_3_recommendations`. -/
structure ChainRec where
  ndc : String
  chain : List ChainAvg
deriving DecidableEq, Repr

/-- An output record of `calculate_goal_4_common_quantities`. -/
structure QuantityProfile where
  ndc : String
  most_prescribed_quantity : List ℚ
deriving DecidableEq, Repr

/-- An intermediate row of Goal 3's `avg_chain_price_df` (line 87-88). -/
structure ChainAvgRow where
  ndc : String
  chain : String
  avg_price : ℚ
deriving DecidableEq, Repr

/-- An intermediate row of Goal 4's `quantity_counts` (line 107). -/
structure QtyCountRow where
  ndc : String
  quantity : ℚ
  count : ℕ
deriving DecidableEq, Repr

/-- `Series.round(2)`: rounding to two decimal places over `ℚ`. -/
def round2 (x : ℚ) : ℚ := (round (100 * x) : ℤ) / 100

/-- The revert-exclusion plus numeric-coercion plus positive-quantity
filter of `calculate_goal_2_metrics`, lines 44-50: drop claims whose `id`
is among the revert `claim_id` values, coerce `price` and `quantity`
(dropping rows where either fails), keep `quantity > 0`, and derive
`unit_price = price / quantity`. -/
def goal2ValidClaims (claims : List Claim) (revertIds : List String) : List ValidClaim :=
  (claims.filter fun c => ¬ revertIds.contains c.id).filterMap fun c =>
    match c.price, c.quantity with
    | some p, some q => if 0 < q then some ⟨c.id, c.npi, c.ndc, p, q, p / q⟩ else none
    | _, _ => none

/-- The same derivation as duplicated verbatim in
`calculate_goal_3_recommendations`, lines 78-83. -/
def goal3ValidClaims (claims : List Claim) (revertIds : List String) : List ValidClaim :=
  (claims.filter fun c => ¬ revertIds.contains c.id).filterMap fun c =>
    match c.price, c.quantity with
    | some p, some q => if 0 < q then some ⟨c.id, c.npi, c.ndc, p, q, p / q⟩ else none
    | _, _ => none

/-- The `(npi, ndc)` group keys of a claim set (`groupby(['npi','ndc'])`,
line 57); key order is irrelevant to every property below. -/
def goal2Keys (claims : List Claim) : List (String × String) :=
  ((claims.map fun c => (c.npi, c.ndc))).dedup

/-- The rows of a claim set falling in the `(npi, ndc)` group `k`. -/
def goal2Group (claims : List Claim) (k : String × String) : List Claim :=
  claims.filter fun c => c.npi = k.1 ∧ c.ndc = k.2

/-- Goal 2's price metrics for key `k`: mean `unit_price` and summed
`price` over the valid claims of the group (lines 52-55), with the
left-join `fillna(0)` of lines 63-66 for keys with no valid claim, then
`round(2)` (lines 68-69). -/
def goal2PriceMetrics (valid : List ValidClaim) (k : String × String) : ℚ × ℚ :=
  let vgrp := valid.filter fun v => v.npi = k.1 ∧ v.ndc = k.2
  let avg0 : ℚ := if vgrp.isEmpty then 0 else ((vgrp.map fun v => v.unit_price).sum) / vgrp.length
  let tot0 : ℚ := if vgrp.isEmpty then 0 else ((vgrp.map fun v => v.price).sum)
  (round2 avg0, round2 tot0)

/-- `calculate_goal_2_metrics` (lines 40-72): one `FillMetric` per
`(npi, ndc)` key of the full claim set, with `fills` the group size,
`reverted` the count of group members whose `id` is in the revert set,
and `avg_price`/`total_price` from `goal2PriceMetrics`. -/
def calculate_goal_2_metrics (claims : List Claim) (revertIds : List String) :
    List FillMetric :=
  let valid := goal2ValidClaims claims revertIds
  (goal2Keys claims).map fun k =>
    let grp := goal2Group claims k
    let pm := goal2PriceMetrics valid k
    { npi := k.1, ndc := k.2,
      fills := grp.length,
      reverted := (grp.filter fun c => revertIds.contains c.id).length,
      avg_price := pm.1, total_price := pm.2 }

/-- The inner join of the valid claims with the pharmacy table on `npi`
(`pd.merge(valid_claims_df, pharmacy_df, on='npi')`, line 85), keeping
each matched row's claim fields and the pharmacy's `chain`. -/
def goal3Joined (claims : List Claim) (pharmacies : List Pharmacy)
    (revertIds : List String) : List (ValidClaim × String) :=
  (goal3ValidClaims claims revertIds).flatMap fun v =>
    (pharmacies.filter fun p => p.npi = v.npi).map fun p => (v, p.chain)

/-- Goal 3's `avg_chain_price_df` (lines 87-88): per `(ndc, chain)` group
of the join, the mean `unit_price` rounded to 2 decimals. -/
def goal3AvgRows (claims : List Claim) (pharmacies : List Pharmacy)
    (revertIds : List String) : List ChainAvgRow :=
  let joined := goal3Joined claims pharmacies revertIds
  ((joined.map fun j => (j.1.ndc, j.2)).dedup).map fun k =>
    let grp := joined.filter fun j => j.1.ndc = k.1 ∧ j.2 = k.2
    ⟨k.1, k.2, round2 (((grp.map fun j => j.1.unit_price).sum) / grp.length)⟩

/-- The ordering key of Goal 3's `sort_values('avg_price')` (line 90). -/
def leAvgRow (a b : ChainAvgRow) : Prop := a.avg_price ≤ b.avg_price

instance : DecidableRel leAvgRow := fun a b => inferInstanceAs (Decidable (_ ≤ _))

instance : IsTotal ChainAvgRow leAvgRow := ⟨fun a b => le_total a.avg_price b.avg_price⟩

instance : IsTrans ChainAvgRow leAvgRow := ⟨fun _ _ _ h h2 => le_trans h h2⟩

/-- `calculate_goal_3_recommendations` (lines 74-98): sort the chain
averages ascending by `avg_price` (line 90), keep the first 2 per `ndc`
(`groupby('ndc').head(2)`, line 90), and emit one record per `ndc` with
its `{name, avg_price}` list in that order (lines 92-95). -/
def calculate_goal_3_recommendations (claims : List Claim) (pharmacies : List Pharmacy)
    (revertIds : List String) : List ChainRec :=
  let rows := goal3AvgRows claims pharmacies revertIds
  ((rows.map fun r => r.ndc).dedup).map fun d =>
    let sorted := List.insertionSort leAvgRow (rows.filter fun r => r.ndc = d)
    ⟨d, (sorted.take 2).map fun r => ⟨r.chain, r.avg_price⟩⟩

/-- Goal 4's coerced-and-kept `(ndc, quantity)` pairs: the rows surviving
`pd.to_numeric(claims_df['quantity'], errors='coerce')` followed by
`dropna(subset=['quantity'])` (lines 104-105). -/
def goal4Kept (claims : List Claim) : List (String × ℚ) :=
  claims.filterMap fun c => c.quantity.map fun q => (c.ndc, q)

/-- Goal 4's `quantity_counts` (line 107): per `(ndc, quantity)` group,
the number of surviving rows. -/
def goal4CountRows (claims : List Claim) : List QtyCountRow :=
  ((goal4Kept claims).dedup).map fun k =>
    ⟨k.1, k.2, ((goal4Kept claims).filter fun x => x = k).length⟩

/-- The ordering of Goal 4's `sort_values('count', ascending=False)`
(line 109): `a` may precede `b` when its count is at least `b`'s. -/
def geCountRow (a b : QtyCountRow) : Prop := b.count ≤ a.count

instance : DecidableRel geCountRow := fun a b => inferInstanceAs (Decidable (_ ≤ _))

instance : IsTotal QtyCountRow geCountRow := ⟨fun a b => le_total b.count a.count⟩

instance : IsTrans QtyCountRow geCountRow := ⟨fun _ _ _ h h2 => le_trans h2 h⟩

/-- `calculate_goal_4_common_quantities` (lines 100-114).  Its first
component is the returned profile list: per `ndc`, the quantities of the
5 most frequent `(ndc, quantity)` groups in descending-count order
(lines 107-111).  Its second component is the claims dataframe as the
caller sees it after the call: lines 104-105 coerce the `quantity`
column and drop non-coercible rows *in place* on the passed dataframe
(no `.copy()`, unlike Goals 2 and 3), so the caller's collection ends up
equal to its quantity-coercible subset. -/
def calculate_goal_4_common_quantities (claims : List Claim) :
    List QuantityProfile × List Claim :=
  (let rows := goal4CountRows claims
   ((rows.map fun r => r.ndc).dedup).map fun d =>
     let sorted := List.insertionSort geCountRow (rows.filter fun r => r.ndc = d)
     ⟨d, (sorted.take 5).map fun r => r.quantity⟩,
   claims.filter fun c => c.quantity.isSome)

/-- The number of claims of drug `d` whose quantity coerces to `q`:
the frequency that Goal 4 tallies for the `(d, q)` group. -/
def freqCount (claims : List Claim) (d : String) (q : ℚ) : ℕ :=
  (claims.filter fun c => c.ndc = d ∧ c.quantity = some q).length

/-- A row of the claims dataframe as loaded, before `main`'s
`dropna(subset=['npi', 'id'])` (line 139): `id` and `npi` may be NaN. -/
structure RawClaim where
  id : Option String
  npi : Option String
  ndc : String
  price : Option ℚ
  quantity : Option ℚ
deriving DecidableEq, Repr

/-- The loaded pharmacy dataframe.  `hasChain` records whether the
`chain` column exists at all: `main` validates only the `npi` column
(line 130), and Goal 3's `groupby(['ndc', 'chain'])` (line 87) raises
`KeyError` when it is absent. -/
structure PharmacyDF where
  rows : List Pharmacy
  hasChain : Bool
deriving DecidableEq, Repr

/-- The loaded reverts dataframe, as seen through its `claim_id` column:
`none` when the column is absent — in particular when the revert
directories contribute zero records, since `load_data_from_dirs` then
returns `pd.DataFrame()`, which has no columns — in which case the
unguarded `reverts_df['claim_id']` (line 44) raises `KeyError`. -/
abbrev RevertsDF := Option (List String)

/-- The uncaught exceptions the pipeline can die with on the modelled
inputs: the `KeyError` from `reverts_df['claim_id']` (line 44), the
`KeyError` from grouping on a missing `chain` column (line 87), and the
`TypeError` from `reset_index(name='chain')` (line 95): when
`top_2_chains` is empty, `groupby('ndc').apply(...)` returns an empty
`DataFrame` rather than a `Series`, and `DataFrame.reset_index` rejects
the `name` keyword. -/
inductive PipeError where
  | keyErrorClaimId
  | keyErrorChain
  | typeErrorResetIndex
deriving DecidableEq, Repr

/-- An output file written by `main`, with its content. -/
inductive Written where
  | goal2Metrics (content : List FillMetric)
  | goal3Recommendations (content : List ChainRec)
  | goal4CommonQuantities (content : List QuantityProfile)
deriving DecidableEq, Repr

/-- The bare file name of a written output, forgetting content. -/
inductive OutFile where
  | goal2Metrics
  | goal3Recommendations
  | goal4CommonQuantities
deriving DecidableEq, Repr

/-- The file name of a `Written` output. -/
def Written.file : Written → OutFile
  | .goal2Metrics _ => .goal2Metrics
  | .goal3Recommendations _ => .goal3Recommendations
  | .goal4CommonQuantities _ => .goal4CommonQuantities

/-- The claims dataframe `main` hands to the goal computations: the rows
whose `npi` and `id` are present (`dropna(subset=['npi', 'id'])`,
line 139) and whose `npi` appears among the pharmacy npis (line 142). -/
def mainClaims (ph : PharmacyDF) (claims0 : List RawClaim) : List Claim :=
  (claims0.filterMap fun rc =>
    match rc.id, rc.npi with
    | some i, some n => some (⟨i, n, rc.ndc, rc.price, rc.quantity⟩ : Claim)
    | _, _ => none).filter fun c => ph.rows.any fun p => p.npi = c.npi

/-- `main` (lines 116-173) after loading: the empty/`npi` checks on the
pharmacy and claims data (lines 130-135), the `dropna` and
known-pharmacy filter of `mainClaims` (lines 139-142), the
soft-terminate on zero remaining claims (lines 147-149), then the three
goal computations, each followed immediately by its file write (lines
153-171).  Returns the outputs written, in order, and how the process
ended.  An early `return` and an uncaught exception both write nothing
further.  Goal 3 can raise *after* `goal_2_metrics.json` has been
written: `KeyError` when the `chain` column is absent (line 87), and
`TypeError` at line 95 when `avg_chain_price_df` — and hence
`top_2_chains` — is empty (no claim survives revert-exclusion, numeric
coercion and the pharmacy join), since `groupby.apply` then yields an
empty `DataFrame`, whose `reset_index` rejects the `name` keyword. -/
def mainRun (ph : PharmacyDF) (claims0 : List RawClaim) (reverts : RevertsDF) :
    List Written × Except PipeError Unit :=
  if ph.rows.isEmpty then ([], .ok ())
  else if claims0.isEmpty then ([], .ok ())
  else
    let claims2 := mainClaims ph claims0
    if claims2.isEmpty then ([], .ok ())
    else
      match reverts with
      | none => ([], .error .keyErrorClaimId)
      | some revertIds =>
        let g2 := calculate_goal_2_metrics claims2 revertIds
        if ph.hasChain then
          if (goal3AvgRows claims2 ph.rows revertIds).isEmpty then
            ([.goal2Metrics g2], .error .typeErrorResetIndex)
          else
            let g3 := calculate_goal_3_recommendations claims2 ph.rows revertIds
            let g4 := calculate_goal_4_common_quantities claims2
            ([.goal2Metrics g2, .goal3Recommendations g3, .goal4CommonQuantities g4.1], .ok ())
        else
          ([.goal2Metrics g2], .error .keyErrorChain)

/-- The names of the output files an invocation writes. -/
def writtenFiles (ph : PharmacyDF) (claims0 : List RawClaim) (reverts : RevertsDF) :
    List OutFile :=
  (mainRun ph claims0 reverts).1.map Written.file

/-! ## Helper lemmas -/

theorem round2_mul_hundred (x : ℚ) : (100 : ℚ) * round2 x = (round (100 * x) : ℤ) := by
  rw [round2, mul_comm, div_mul_cancel₀]
  norm_num

theorem round2_nonneg {x : ℚ} (hx : 0 ≤ x) : 0 ≤ round2 x := by
  have h : (0 : ℤ) ≤ round (100 * x) := by
    rw [round_eq, Int.le_floor]
    push_cast
    nlinarith
  rw [round2]
  positivity

theorem mem_goal2ValidClaims {claims : List Claim} {revertIds : List String}
    {v : ValidClaim} (hv : v ∈ goal2ValidClaims claims revertIds) :
    ∃ c ∈ claims, ¬ revertIds.contains c.id ∧ c.price = some v.price ∧
      c.quantity = some v.quantity ∧ c.npi = v.npi ∧ c.ndc = v.ndc ∧
      0 < v.quantity ∧ v.unit_price = v.price / v.quantity := by
  rw [goal2ValidClaims, List.mem_filterMap] at hv
  obtain ⟨c, hc, hfc⟩ := hv
  rw [List.mem_filter] at hc
  refine ⟨c, hc.1, by simpa using hc.2, ?_⟩
  rcases hp : c.price with _ | p <;> rcases hq : c.quantity with _ | q <;>
      simp [hp, hq] at hfc
  obtain ⟨hpos, rfl⟩ := hfc
  exact ⟨rfl, rfl, rfl, rfl, hpos, rfl⟩

theorem goal2ValidClaims_append (claims claims2 : List Claim) (revertIds : List String) :
    goal2ValidClaims (claims ++ claims2) revertIds =
      goal2ValidClaims claims revertIds ++ goal2ValidClaims claims2 revertIds := by
  rw [goal2ValidClaims, goal2ValidClaims, goal2ValidClaims, List.filter_append,
    List.filterMap_append]

theorem goal2ValidClaims_singleton_nonpos {c0 : Claim} {q0 : ℚ}
    (hq : c0.quantity = some q0) (hq0 : q0 ≤ 0) (revertIds : List String) :
    goal2ValidClaims [c0] revertIds = [] := by
  rw [goal2ValidClaims]
  by_cases hrev : revertIds.contains c0.id
  · have hmem : c0.id ∈ revertIds := by simpa using hrev
    simp [hmem]
  · rcases hp : c0.price with _ | p <;> simp [hrev, hp, hq, not_lt.mpr hq0]

theorem goal2ValidClaims_append_nonpos {c0 : Claim} {q0 : ℚ}
    (hq : c0.quantity = some q0) (hq0 : q0 ≤ 0)
    (claims : List Claim) (revertIds : List String) :
    goal2ValidClaims (claims ++ [c0]) revertIds = goal2ValidClaims claims revertIds := by
  rw [goal2ValidClaims_append, goal2ValidClaims_singleton_nonpos hq hq0, List.append_nil]

theorem goal3ValidClaims_eq_goal2 (claims : List Claim) (revertIds : List String) :
    goal3ValidClaims claims revertIds = goal2ValidClaims claims revertIds := rfl

theorem goal4Kept_count (claims : List Claim) (d : String) (q : ℚ) :
    ((goal4Kept claims).filter fun x => x = (d, q)).length = freqCount claims d q := by
  induction claims with
  | nil => rfl
  | cons c cs ih =>
    rcases hq : c.quantity with _ | q2
    · have h1 : goal4Kept (c :: cs) = goal4Kept cs := by
        simp [goal4Kept, List.filterMap_cons, hq]
      have h2 : freqCount (c :: cs) d q = freqCount cs d q := by
        simp [freqCount, List.filter_cons, hq]
      rw [h1, h2, ih]
    · have h1 : goal4Kept (c :: cs) = (c.ndc, q2) :: goal4Kept cs := by
        simp [goal4Kept, List.filterMap_cons, hq]
      by_cases h : c.ndc = d ∧ q2 = q
      · have h2 : freqCount (c :: cs) d q = freqCount cs d q + 1 := by
          simp [freqCount, List.filter_cons, hq, h.1, h.2]
        rw [h1, h2, List.filter_cons]
        simp [h.1, h.2, ih]
      · have h2 : freqCount (c :: cs) d q = freqCount cs d q := by
          rcases not_and_or.mp h with h3 | h3 <;> simp [freqCount, List.filter_cons, hq, h3]
        rw [h1, h2, List.filter_cons]
        have hne : ¬ ((c.ndc, q2) = (d, q)) := by simpa [Prod.ext_iff] using h
        simp [hne, ih]

theorem goal4CountRows_count {claims : List Claim} {row : QtyCountRow}
    (h : row ∈ goal4CountRows claims) :
    row.count = freqCount claims row.ndc row.quantity := by
  rw [goal4CountRows, List.mem_map] at h
  obtain ⟨k, _, rfl⟩ := h
  exact goal4Kept_count claims k.1 k.2

theorem goal4CountRows_mem {claims : List Claim} {c : Claim} {q : ℚ}
    (hc : c ∈ claims) (hq : c.quantity = some q) :
    (⟨c.ndc, q, freqCount claims c.ndc q⟩ : QtyCountRow) ∈ goal4CountRows claims := by
  have hk : (c.ndc, q) ∈ (goal4Kept claims).dedup := by
    rw [List.mem_dedup, goal4Kept, List.mem_filterMap]
    exact ⟨c, hc, by simp [hq]⟩
  rw [goal4CountRows, List.mem_map]
  exact ⟨(c.ndc, q), hk, by rw [goal4Kept_count]⟩

theorem freqCount_partition (claims : List Claim) (revertIds : List String)
    (d : String) (q : ℚ) :
    freqCount claims d q =
      freqCount (claims.filter fun c => revertIds.contains c.id) d q +
        freqCount (claims.filter fun c => ¬ revertIds.contains c.id) d q := by
  induction claims with
  | nil => rfl
  | cons c cs ih =>
    by_cases hrev : revertIds.contains c.id = true <;>
      by_cases hcq : c.ndc = d ∧ c.quantity = some q <;>
        simp_all [freqCount, List.filter_cons] <;> omega

theorem mem_goal2_metrics {claims : List Claim} {revertIds : List String} {m : FillMetric}
    (hm : m ∈ calculate_goal_2_metrics claims revertIds) :
    m.fills = (claims.filter fun c => c.npi = m.npi ∧ c.ndc = m.ndc).length ∧
    m.reverted = ((claims.filter fun c => c.npi = m.npi ∧ c.ndc = m.ndc).filter
        fun c => revertIds.contains c.id).length ∧
    m.avg_price = (goal2PriceMetrics (goal2ValidClaims claims revertIds) (m.npi, m.ndc)).1 ∧
    m.total_price = (goal2PriceMetrics (goal2ValidClaims claims revertIds) (m.npi, m.ndc)).2 := by
  rw [calculate_goal_2_metrics, List.mem_map] at hm
  obtain ⟨k, _, rfl⟩ := hm
  exact ⟨rfl, rfl, rfl, rfl⟩

theorem goal2PriceMetrics_twoDp (valid : List ValidClaim) (k : String × String) :
    (∃ n : ℤ, (n : ℚ) = 100 * (goal2PriceMetrics valid k).1) ∧
    (∃ n : ℤ, (n : ℚ) = 100 * (goal2PriceMetrics valid k).2) :=
  ⟨⟨_, (round2_mul_hundred _).symm⟩, ⟨_, (round2_mul_hundred _).symm⟩⟩

theorem goal2PriceMetrics_nonneg {claims : List Claim} {revertIds : List String}
    (k : String × String)
    (hpos : ∀ c ∈ claims, ∀ p : ℚ, c.price = some p → 0 ≤ p) :
    0 ≤ (goal2PriceMetrics (goal2ValidClaims claims revertIds) k).1 ∧
    0 ≤ (goal2PriceMetrics (goal2ValidClaims claims revertIds) k).2 := by
  have hv : ∀ v ∈ (goal2ValidClaims claims revertIds).filter
      (fun v => v.npi = k.1 ∧ v.ndc = k.2), 0 ≤ v.unit_price ∧ 0 ≤ v.price := by
    intro v hvf
    obtain ⟨c, hc, _, hp, _, _, _, hq, hu⟩ := mem_goal2ValidClaims (List.mem_of_mem_filter hvf)
    have hple : 0 ≤ v.price := hpos c hc v.price hp
    exact ⟨hu ▸ div_nonneg hple hq.le, hple⟩
  rw [goal2PriceMetrics]
  constructor <;> apply round2_nonneg
  · split
    · exact le_refl 0
    · apply div_nonneg
      · exact List.sum_nonneg fun x hx => by
          obtain ⟨v, hvf, rfl⟩ := List.mem_map.mp hx
          exact (hv v hvf).1
      · positivity
  · split
    · exact le_refl 0
    · exact List.sum_nonneg fun x hx => by
        obtain ⟨v, hvf, rfl⟩ := List.mem_map.mp hx
        exact (hv v hvf).2

theorem mem_goal3_ndc {claims : List Claim} {pharmacies : List Pharmacy}
    {revertIds : List String} {rec : ChainRec}
    (h : rec ∈ calculate_goal_3_recommendations claims pharmacies revertIds) :
    ∃ v ∈ goal3ValidClaims claims revertIds, v.ndc = rec.ndc := by
  rw [calculate_goal_3_recommendations, List.mem_map] at h
  obtain ⟨d, hd, rfl⟩ := h
  rw [List.mem_dedup, List.mem_map] at hd
  obtain ⟨row, hrow, hrd⟩ := hd
  rw [goal3AvgRows, List.mem_map] at hrow
  obtain ⟨k, hk, rfl⟩ := hrow
  rw [List.mem_dedup, List.mem_map] at hk
  obtain ⟨j, hj, hjk⟩ := hk
  rw [goal3Joined, List.mem_flatMap] at hj
  obtain ⟨v, hv, hjm⟩ := hj
  rw [List.mem_map] at hjm
  obtain ⟨p, _, hjp⟩ := hjm
  refine ⟨v, hv, ?_⟩
  have h1 : j.1.ndc = k.1 := by rw [← hjk]
  have h2 : j.1 = v := by rw [← hjp]
  simp only [← hrd, ← h1, h2]

theorem mem_goal3_shape {claims : List Claim} {pharmacies : List Pharmacy}
    {revertIds : List String} {rec : ChainRec}
    (h : rec ∈ calculate_goal_3_recommendations claims pharmacies revertIds) :
    rec.chain.length =
      min 2 ((goal3AvgRows claims pharmacies revertIds).filter
        fun r => r.ndc = rec.ndc).length ∧
    List.Pairwise (fun a b : ChainAvg => a.avg_price ≤ b.avg_price) rec.chain := by
  rw [calculate_goal_3_recommendations, List.mem_map] at h
  obtain ⟨d, _, rfl⟩ := h
  constructor
  · simp [List.length_take, List.length_insertionSort]
  · have hs : List.Sorted leAvgRow (List.insertionSort leAvgRow
        ((goal3AvgRows claims pharmacies revertIds).filter fun r => r.ndc = d)) :=
      List.sorted_insertionSort leAvgRow _
    have ht : List.Pairwise leAvgRow ((List.insertionSort leAvgRow
        ((goal3AvgRows claims pharmacies revertIds).filter fun r => r.ndc = d)).take 2) :=
      List.Pairwise.sublist (List.take_sublist 2 _) hs
    exact List.pairwise_map.mpr (ht.imp fun hab => hab)

theorem mem_goal4_shape {claims : List Claim} {rec : QuantityProfile}
    (h : rec ∈ (calculate_goal_4_common_quantities claims).1) :
    rec.most_prescribed_quantity.length ≤ 5 ∧
    List.Pairwise (fun a b : ℚ => freqCount claims rec.ndc b ≤ freqCount claims rec.ndc a)
      rec.most_prescribed_quantity := by
  rw [calculate_goal_4_common_quantities, List.mem_map] at h
  obtain ⟨d, _, rfl⟩ := h
  constructor
  · simp only [List.length_map, List.length_take]
    exact min_le_left _ _
  · have hs : List.Sorted geCountRow (List.insertionSort geCountRow
        ((goal4CountRows claims).filter fun r => r.ndc = d)) :=
      List.sorted_insertionSort geCountRow _
    have ht : List.Pairwise geCountRow ((List.insertionSort geCountRow
        ((goal4CountRows claims).filter fun r => r.ndc = d)).take 5) :=
      List.Pairwise.sublist (List.take_sublist 5 _) hs
    have hmem : ∀ r ∈ (List.insertionSort geCountRow
        ((goal4CountRows claims).filter fun r => r.ndc = d)).take 5,
        r.ndc = d ∧ r.count = freqCount claims d r.quantity := by
      intro r hr
      have hr2 : r ∈ (goal4CountRows claims).filter fun r => r.ndc = d :=
        (List.mem_insertionSort geCountRow).mp ((List.take_sublist 5 _).subset hr)
      have hrd : r.ndc = d := by simpa using (List.mem_filter.mp hr2).2
      exact ⟨hrd, hrd ▸ goal4CountRows_count (List.mem_of_mem_filter hr2)⟩
    have key : List.Pairwise (fun a b : ℚ => freqCount claims d b ≤ freqCount claims d a)
        (((List.insertionSort geCountRow
          ((goal4CountRows claims).filter fun r => r.ndc = d)).take 5).map
            fun r => r.quantity) := by
      refine List.pairwise_map.mpr (ht.imp_of_mem ?_)
      intro a b ha hb hab
      rw [← (hmem b hb).2, ← (hmem a ha).2]
      exact hab
    exact key

/-! ## Claim theorems -/

/-- Claim C1 (amended): all fatal and soft-terminate checks of `main` run
before any output file is written, and every invocation writes either
all three goal files or none of them, provided the loaded pharmacy data
has a `chain` column and Goal 3's chain-average table is non-empty
whenever any claims survive `main`'s filters.  (Without the `chain`
column Goal 3 raises `KeyError` at line 87, and with an empty
chain-average table it raises `TypeError` at line 95 — in both cases
after `goal_2_metrics.json` was written, leaving a partial output set;
see the counterexample and `mainRun_all_reverted_partial_output`.) -/
theorem mainRun_all_or_nothing {ph : PharmacyDF} (claims0 : List RawClaim)
    (reverts : RevertsDF) (hchain : ph.hasChain = true)
    (hjoin : ∀ revertIds : List String, reverts = some revertIds →
      mainClaims ph claims0 ≠ [] →
      goal3AvgRows (mainClaims ph claims0) ph.rows revertIds ≠ []) :
    writtenFiles ph claims0 reverts = [] ∨
      writtenFiles ph claims0 reverts =
        [OutFile.goal2Metrics, OutFile.goal3Recommendations, OutFile.goal4CommonQuantities] := by
  rw [writtenFiles, mainRun]
  by_cases h1 : ph.rows.isEmpty = true
  · rw [if_pos h1]
    exact Or.inl rfl
  rw [if_neg h1]
  by_cases h2 : claims0.isEmpty = true
  · rw [if_pos h2]
    exact Or.inl rfl
  rw [if_neg h2]
  dsimp only
  by_cases h3 : (mainClaims ph claims0).isEmpty = true
  · rw [if_pos h3]
    exact Or.inl rfl
  rw [if_neg h3]
  cases reverts with
  | none => exact Or.inl rfl
  | some revertIds =>
    dsimp only
    have hclaims : mainClaims ph claims0 ≠ [] := fun hnil => h3 (by rw [hnil]; rfl)
    have havg := hjoin revertIds rfl hclaims
    rw [hchain, if_pos rfl, if_neg (fun hemp => havg (List.isEmpty_iff.mp hemp))]
    refine Or.inr ?_
    simp [Written.file]

/-- Claim C1, witness: a run with the `chain` column present and one
surviving valid claim lands in the all-three-files case. -/
theorem mainRun_all_or_nothing_witness :
    (⟨[⟨"1", "A"⟩], true⟩ : PharmacyDF).hasChain = true ∧
    (∀ revertIds : List String, (some [] : RevertsDF) = some revertIds →
      mainClaims ⟨[⟨"1", "A"⟩], true⟩ [⟨some "c1", some "1", "D1", some 100, some 10⟩] ≠ [] →
      goal3AvgRows (mainClaims ⟨[⟨"1", "A"⟩], true⟩
          [⟨some "c1", some "1", "D1", some 100, some 10⟩]) [⟨"1", "A"⟩] revertIds ≠ []) ∧
    (writtenFiles ⟨[⟨"1", "A"⟩], true⟩
        [⟨some "c1", some "1", "D1", some 100, some 10⟩] (some []) = [] ∨
      writtenFiles ⟨[⟨"1", "A"⟩], true⟩
        [⟨some "c1", some "1", "D1", some 100, some 10⟩] (some []) =
        [OutFile.goal2Metrics, OutFile.goal3Recommendations, OutFile.goal4CommonQuantities]) := by
  have hj : ∀ revertIds : List String, (some [] : RevertsDF) = some revertIds →
      mainClaims ⟨[⟨"1", "A"⟩], true⟩ [⟨some "c1", some "1", "D1", some 100, some 10⟩] ≠ [] →
      goal3AvgRows (mainClaims ⟨[⟨"1", "A"⟩], true⟩
          [⟨some "c1", some "1", "D1", some 100, some 10⟩]) [⟨"1", "A"⟩] revertIds ≠ [] := by
    intro revertIds hsome _
    obtain rfl : ([] : List String) = revertIds := Option.some.inj hsome
    have heval : goal3AvgRows (mainClaims ⟨[⟨"1", "A"⟩], true⟩
        [⟨some "c1", some "1", "D1", some 100, some 10⟩]) [⟨"1", "A"⟩] [] =
        [⟨"D1", "A", 10⟩] := by
      norm_num +decide [goal3AvgRows, goal3Joined, goal3ValidClaims, mainClaims,
        round2, round_eq, List.filterMap_cons, List.filter_cons, List.dedup_cons_of_not_mem]
    rw [heval]
    exact fun h => List.noConfusion h
  exact ⟨rfl, hj,
    mainRun_all_or_nothing [⟨some "c1", some "1", "D1", some 100, some 10⟩] (some []) rfl hj⟩

/-- The partial-output path the amended claim C1 excludes is reachable
even with the `chain` column present: when every claim is reverted (the
spec's own fully-reverted scenario), Goal 3's chain-average table is
empty, `reset_index(name='chain')` raises `TypeError` at line 95, and
the run ends with exactly `goal_2_metrics.json` written. -/
theorem mainRun_all_reverted_partial_output :
    writtenFiles ⟨[⟨"1", "A"⟩], true⟩
        [⟨some "c1", some "1", "D1", some 100, some 10⟩] (some ["c1"]) =
      [OutFile.goal2Metrics] ∧
    (mainRun ⟨[⟨"1", "A"⟩], true⟩
        [⟨some "c1", some "1", "D1", some 100, some 10⟩] (some ["c1"])).2 =
      Except.error PipeError.typeErrorResetIndex := by
  constructor
  · norm_num +decide [writtenFiles, mainRun, mainClaims, Written.file]
  · norm_num +decide [mainRun, mainClaims]

/-- Claim C1, counterexample to the claim as stated: when the loaded
pharmacy data lacks the `chain` column (which `main` never checks),
Goal 3's `groupby(['ndc', 'chain'])` raises `KeyError` *after*
`goal_2_metrics.json` has been written, so exactly one of the three
output files is produced — neither all nor none. -/
theorem mainRun_partial_output_cex :
    ¬ (writtenFiles ⟨[⟨"1", "A"⟩], false⟩
          [⟨some "c1", some "1", "D1", some 100, some 10⟩] (some []) = [] ∨
       writtenFiles ⟨[⟨"1", "A"⟩], false⟩
          [⟨some "c1", some "1", "D1", some 100, some 10⟩] (some []) =
          [OutFile.goal2Metrics, OutFile.goal3Recommendations, OutFile.goal4CommonQuantities]) := by
  have h : writtenFiles ⟨[⟨"1", "A"⟩], false⟩
      [⟨some "c1", some "1", "D1", some 100, some 10⟩] (some []) = [OutFile.goal2Metrics] := by
    norm_num +decide [writtenFiles, mainRun, Written.file]
  rw [h]
  decide

/-- Claim C8: the claim is right and the code is wrong.  When the revert
directories contribute zero records, `load_data_from_dirs` returns
`pd.DataFrame()`, which has no `claim_id` column, and the unguarded
`reverts_df['claim_id']` in `calculate_goal_2_metrics` (line 44) raises
`KeyError`: the pipeline dies before writing any output instead of
treating every claim as valid. -/
theorem empty_reverts_collection_keyerror :
    mainRun ⟨[⟨"1", "A"⟩], true⟩ [⟨some "c1", some "1", "D1", some 100, some 10⟩] none =
      ([], Except.error PipeError.keyErrorClaimId) := by
  rfl

/-- Claim C2: Goal 4's frequency tally counts every claim whose quantity
coerces to a number, reverted or not: each such claim's `(ndc, quantity)`
group appears in `quantity_counts` with the full claim count for that
group, that count splits into the reverted and the non-reverted claims of
the group, and the claim itself makes it positive. -/
theorem goal4_counts_ignore_reverts (claims : List Claim) (revertIds : List String)
    (c : Claim) (q : ℚ) (hc : c ∈ claims) (hq : c.quantity = some q) :
    (⟨c.ndc, q, freqCount claims c.ndc q⟩ : QtyCountRow) ∈ goal4CountRows claims ∧
    freqCount claims c.ndc q =
      freqCount (claims.filter fun x => revertIds.contains x.id) c.ndc q +
        freqCount (claims.filter fun x => ¬ revertIds.contains x.id) c.ndc q ∧
    0 < freqCount claims c.ndc q := by
  refine ⟨goal4CountRows_mem hc hq, freqCount_partition claims revertIds c.ndc q, ?_⟩
  exact List.length_pos_of_mem (List.mem_filter.mpr ⟨hc, by simp [hq]⟩)

/-- Claim C2, witness: a reverted claim (id `c1` in the revert set) is
still tallied by Goal 4. -/
theorem goal4_counts_ignore_reverts_witness :
    (⟨"c1", "1", "d", some 2, some 3⟩ : Claim) ∈ [(⟨"c1", "1", "d", some 2, some 3⟩ : Claim)] ∧
    (⟨"c1", "1", "d", some 2, some 3⟩ : Claim).quantity = some 3 ∧
    ((⟨"d", 3, freqCount [⟨"c1", "1", "d", some 2, some 3⟩] "d" 3⟩ : QtyCountRow) ∈
        goal4CountRows [⟨"c1", "1", "d", some 2, some 3⟩] ∧
      freqCount [⟨"c1", "1", "d", some 2, some 3⟩] "d" 3 =
        freqCount ([⟨"c1", "1", "d", some 2, some 3⟩].filter
            fun x => ["c1"].contains x.id) "d" 3 +
          freqCount ([⟨"c1", "1", "d", some 2, some 3⟩].filter
            fun x => ¬ ["c1"].contains x.id) "d" 3 ∧
      0 < freqCount [⟨"c1", "1", "d", some 2, some 3⟩] "d" 3) :=
  ⟨List.mem_singleton.mpr rfl, rfl,
    goal4_counts_ignore_reverts [⟨"c1", "1", "d", some 2, some 3⟩] ["c1"]
      ⟨"c1", "1", "d", some 2, some 3⟩ 3 (List.mem_singleton.mpr rfl) rfl⟩

/-- Claim C3: a claim whose quantity coerces to a nonpositive number is
absent from the valid-claim set (every member of which has a strictly
positive quantity, the divisor of its `unit_price`), so appending such a
claim changes neither Goal 2's per-key `avg_price`/`total_price` nor
Goal 3's output; but if the quantity coerced (e.g. to `0`) the claim is
still counted by Goal 4's frequency tally. -/
theorem nonpositive_quantity_contributes_nothing (claims : List Claim)
    (pharmacies : List Pharmacy) (revertIds : List String) (c0 : Claim) (q0 : ℚ)
    (hq : c0.quantity = some q0) (hq0 : q0 ≤ 0) :
    (∀ v ∈ goal2ValidClaims claims revertIds,
      0 < v.quantity ∧ v.unit_price = v.price / v.quantity) ∧
    (∀ k, goal2PriceMetrics (goal2ValidClaims (claims ++ [c0]) revertIds) k =
      goal2PriceMetrics (goal2ValidClaims claims revertIds) k) ∧
    calculate_goal_3_recommendations (claims ++ [c0]) pharmacies revertIds =
      calculate_goal_3_recommendations claims pharmacies revertIds ∧
    freqCount (claims ++ [c0]) c0.ndc q0 = freqCount claims c0.ndc q0 + 1 := by
  have hvc : goal2ValidClaims (claims ++ [c0]) revertIds = goal2ValidClaims claims revertIds :=
    goal2ValidClaims_append_nonpos hq hq0 claims revertIds
  refine ⟨?_, ?_, ?_, ?_⟩
  · intro v hv
    obtain ⟨_, _, _, _, _, _, _, hpos, hu⟩ := mem_goal2ValidClaims hv
    exact ⟨hpos, hu⟩
  · intro k
    rw [hvc]
  · simp only [calculate_goal_3_recommendations, goal3AvgRows, goal3Joined,
      goal3ValidClaims_eq_goal2, hvc]
  · simp [freqCount, List.filter_append, hq]

/-- Claim C3, witness: a quantity-0 claim neither enters the valid set
nor changes Goal 2's price metrics or Goal 3, yet adds 1 to its
`(ndc, 0)` Goal 4 frequency. -/
theorem nonpositive_quantity_contributes_nothing_witness :
    (⟨"c0", "1", "d", some 5, some 0⟩ : Claim).quantity = some 0 ∧ (0 : ℚ) ≤ 0 ∧
    ((∀ v ∈ goal2ValidClaims [⟨"c1", "1", "d", some 2, some 1⟩] [],
        0 < v.quantity ∧ v.unit_price = v.price / v.quantity) ∧
      (∀ k, goal2PriceMetrics (goal2ValidClaims
          ([⟨"c1", "1", "d", some 2, some 1⟩] ++ [⟨"c0", "1", "d", some 5, some 0⟩]) []) k =
        goal2PriceMetrics (goal2ValidClaims [⟨"c1", "1", "d", some 2, some 1⟩] []) k) ∧
      calculate_goal_3_recommendations
          ([⟨"c1", "1", "d", some 2, some 1⟩] ++ [⟨"c0", "1", "d", some 5, some 0⟩])
          [⟨"1", "A"⟩] [] =
        calculate_goal_3_recommendations [⟨"c1", "1", "d", some 2, some 1⟩] [⟨"1", "A"⟩] [] ∧
      freqCount ([⟨"c1", "1", "d", some 2, some 1⟩] ++ [⟨"c0", "1", "d", some 5, some 0⟩]) "d" 0 =
        freqCount [⟨"c1", "1", "d", some 2, some 1⟩] "d" 0 + 1) :=
  ⟨rfl, le_refl 0,
    nonpositive_quantity_contributes_nothing [⟨"c1", "1", "d", some 2, some 1⟩]
      [⟨"1", "A"⟩] [] ⟨"c0", "1", "d", some 5, some 0⟩ 0 rfl (le_refl 0)⟩

/-- Claim C4: every Goal 3 record's chain list has exactly
`min 2 (number of chains of that drug)` entries — so at most 2, and all
existing chains when fewer than 2 exist — sorted ascending by
`avg_price`; and a drug with zero valid claims after filtering yields no
output record at all. -/
theorem goal3_top2_shape_and_absence (claims : List Claim) (pharmacies : List Pharmacy)
    (revertIds : List String) :
    (∀ rec ∈ calculate_goal_3_recommendations claims pharmacies revertIds,
      rec.chain.length =
        min 2 ((goal3AvgRows claims pharmacies revertIds).filter
          fun r => r.ndc = rec.ndc).length ∧
      rec.chain.length ≤ 2 ∧
      List.Pairwise (fun a b : ChainAvg => a.avg_price ≤ b.avg_price) rec.chain) ∧
    (∀ d : String, ((goal3ValidClaims claims revertIds).filter fun v => v.ndc = d) = [] →
      ∀ rec ∈ calculate_goal_3_recommendations claims pharmacies revertIds, rec.ndc ≠ d) := by
  constructor
  · intro rec hrec
    obtain ⟨hlen, hsorted⟩ := mem_goal3_shape hrec
    exact ⟨hlen, hlen ▸ min_le_left _ _, hsorted⟩
  · intro d hd rec hrec heq
    obtain ⟨v, hv, hvndc⟩ := mem_goal3_ndc hrec
    exact (List.filter_eq_nil_iff.mp hd) v hv (by simp [hvndc, heq])

/-- Claim C5: every Goal 2 row's `fills` counts all claims of its
`(npi, ndc)` key in the full, pre-revert-filter claim set, `reverted`
counts the subset of those whose id is in the revert set, and
`reverted ≤ fills`. -/
theorem goal2_reverted_le_fills (claims : List Claim) (revertIds : List String) :
    ∀ m ∈ calculate_goal_2_metrics claims revertIds,
      m.fills = (claims.filter fun c => c.npi = m.npi ∧ c.ndc = m.ndc).length ∧
      m.reverted = ((claims.filter fun c => c.npi = m.npi ∧ c.ndc = m.ndc).filter
          fun c => revertIds.contains c.id).length ∧
      m.reverted ≤ m.fills := by
  intro m hm
  obtain ⟨hfills, hrev, _, _⟩ := mem_goal2_metrics hm
  refine ⟨hfills, hrev, ?_⟩
  rw [hfills, hrev]
  exact List.length_filter_le _ _

/-- Claim C5, witness: one claim, itself reverted, gives the row
`fills = 1, reverted = 1` with `reverted ≤ fills`. -/
theorem goal2_reverted_le_fills_witness :
    (⟨"1", "d", 1, 1, 0, 0⟩ : FillMetric) ∈
      calculate_goal_2_metrics [⟨"c1", "1", "d", some 2, some 1⟩] ["c1"] ∧
    ((⟨"1", "d", 1, 1, 0, 0⟩ : FillMetric).fills =
        ([(⟨"c1", "1", "d", some 2, some 1⟩ : Claim)].filter
          fun c => c.npi = "1" ∧ c.ndc = "d").length ∧
      (⟨"1", "d", 1, 1, 0, 0⟩ : FillMetric).reverted =
        (([(⟨"c1", "1", "d", some 2, some 1⟩ : Claim)].filter
          fun c => c.npi = "1" ∧ c.ndc = "d").filter
            fun c => ["c1"].contains c.id).length ∧
      (⟨"1", "d", 1, 1, 0, 0⟩ : FillMetric).reverted ≤ (⟨"1", "d", 1, 1, 0, 0⟩ : FillMetric).fills) := by
  have heval : calculate_goal_2_metrics [⟨"c1", "1", "d", some 2, some 1⟩] ["c1"] =
      [⟨"1", "d", 1, 1, 0, 0⟩] := by
    norm_num +decide [calculate_goal_2_metrics, goal2Keys, goal2Group, goal2PriceMetrics,
      goal2ValidClaims, round2, round_eq, List.filterMap_cons, List.filter_cons,
      List.dedup_cons_of_not_mem]
  have hmem : (⟨"1", "d", 1, 1, 0, 0⟩ : FillMetric) ∈
      calculate_goal_2_metrics [⟨"c1", "1", "d", some 2, some 1⟩] ["c1"] := by
    rw [heval]; exact List.mem_singleton.mpr rfl
  exact ⟨hmem, goal2_reverted_le_fills [⟨"c1", "1", "d", some 2, some 1⟩] ["c1"]
    ⟨"1", "d", 1, 1, 0, 0⟩ hmem⟩

/-- Claim C6 (amended): every Goal 2 row's `avg_price` and `total_price`
carry exactly two decimal places, and they are nonnegative whenever every
coercible input price is nonnegative (the code never filters negative
prices, so unconditional nonnegativity fails — see the counterexample). -/
theorem goal2_prices_rounded_two_decimals (claims : List Claim) (revertIds : List String) :
    ∀ m ∈ calculate_goal_2_metrics claims revertIds,
      (∃ n : ℤ, (n : ℚ) = 100 * m.avg_price) ∧
      (∃ n : ℤ, (n : ℚ) = 100 * m.total_price) ∧
      ((∀ c ∈ claims, ∀ p : ℚ, c.price = some p → 0 ≤ p) →
        0 ≤ m.avg_price ∧ 0 ≤ m.total_price) := by
  intro m hm
  obtain ⟨_, _, havg, htot⟩ := mem_goal2_metrics hm
  rw [havg, htot]
  refine ⟨(goal2PriceMetrics_twoDp _ _).1, (goal2PriceMetrics_twoDp _ _).2, ?_⟩
  intro hpos
  exact goal2PriceMetrics_nonneg (m.npi, m.ndc) hpos

/-- Claim C6, counterexample to the claim as stated: a claim with a
negative coercible price and positive quantity survives every filter, so
its Goal 2 row has `avg_price = total_price = -1 < 0`. -/
theorem goal2_negative_price_cex :
    ¬ (∀ m ∈ calculate_goal_2_metrics [⟨"c", "1", "d", some (-1), some 1⟩] [],
        0 ≤ m.avg_price ∧ 0 ≤ m.total_price) := by
  have heval : calculate_goal_2_metrics [⟨"c", "1", "d", some (-1), some 1⟩] [] =
      [⟨"1", "d", 1, 0, -1, -1⟩] := by
    norm_num +decide [calculate_goal_2_metrics, goal2Keys, goal2Group, goal2PriceMetrics,
      goal2ValidClaims, round2, round_eq, List.filterMap_cons, List.filter_cons,
      List.dedup_cons_of_not_mem]
  intro h
  have := h ⟨"1", "d", 1, 0, -1, -1⟩ (by rw [heval]; exact List.mem_singleton.mpr rfl)
  exact absurd this.1 (by norm_num)

/-- Claim C6, witness: a single nonnegative-price claim gives the row
`avg_price = total_price = 2`, two-decimal and nonnegative. -/
theorem goal2_prices_rounded_two_decimals_witness :
    (⟨"1", "d", 1, 0, 2, 2⟩ : FillMetric) ∈
      calculate_goal_2_metrics [⟨"c1", "1", "d", some 2, some 1⟩] [] ∧
    ((∃ n : ℤ, (n : ℚ) = 100 * (⟨"1", "d", 1, 0, 2, 2⟩ : FillMetric).avg_price) ∧
      (∃ n : ℤ, (n : ℚ) = 100 * (⟨"1", "d", 1, 0, 2, 2⟩ : FillMetric).total_price) ∧
      ((∀ c ∈ [(⟨"c1", "1", "d", some 2, some 1⟩ : Claim)], ∀ p : ℚ, c.price = some p → 0 ≤ p) →
        0 ≤ (⟨"1", "d", 1, 0, 2, 2⟩ : FillMetric).avg_price ∧
          0 ≤ (⟨"1", "d", 1, 0, 2, 2⟩ : FillMetric).total_price)) := by
  have heval : calculate_goal_2_metrics [⟨"c1", "1", "d", some 2, some 1⟩] [] =
      [⟨"1", "d", 1, 0, 2, 2⟩] := by
    norm_num +decide [calculate_goal_2_metrics, goal2Keys, goal2Group, goal2PriceMetrics,
      goal2ValidClaims, round2, round_eq, List.filterMap_cons, List.filter_cons,
      List.dedup_cons_of_not_mem]
  have hmem : (⟨"1", "d", 1, 0, 2, 2⟩ : FillMetric) ∈
      calculate_goal_2_metrics [⟨"c1", "1", "d", some 2, some 1⟩] [] := by
    rw [heval]; exact List.mem_singleton.mpr rfl
  exact ⟨hmem, goal2_prices_rounded_two_decimals [⟨"c1", "1", "d", some 2, some 1⟩] []
    ⟨"1", "d", 1, 0, 2, 2⟩ hmem⟩

/-- Claim C7 (amended): Goals 2 and 3 operate on a `.copy()` and leave
their inputs unchanged, but Goal 4 mutates the shared claim collection in
place — coercing the quantity column and dropping non-coercible rows — so
the caller's collection is left unchanged iff every claim's quantity
coerces. -/
theorem goal4_input_unchanged_iff_all_coercible (claims : List Claim) :
    (calculate_goal_4_common_quantities claims).2 = claims ↔
      ∀ c ∈ claims, c.quantity.isSome = true :=
  List.filter_eq_self

/-- Claim C7, counterexample to the claim as stated: a claim collection
holding one non-coercible quantity is no longer equal to itself after
`calculate_goal_4_common_quantities` runs on it (the row was dropped in
place). -/
theorem goal4_mutates_input_cex :
    (calculate_goal_4_common_quantities [⟨"c1", "n1", "d1", some 1, none⟩]).2 ≠
      [(⟨"c1", "n1", "d1", some 1, none⟩ : Claim)] := by
  decide

/-- Claim C9: every Goal 4 record's `most_prescribed_quantity` list has
at most 5 entries, ordered by descending frequency of occurrence among
that drug's claims with a coercible quantity. -/
theorem goal4_top5_desc_frequency (claims : List Claim) :
    ∀ rec ∈ (calculate_goal_4_common_quantities claims).1,
      rec.most_prescribed_quantity.length ≤ 5 ∧
      List.Pairwise (fun a b : ℚ => freqCount claims rec.ndc b ≤ freqCount claims rec.ndc a)
        rec.most_prescribed_quantity :=
  fun _ hrec => mem_goal4_shape hrec

/-- Claim C9, witness: a single-claim input yields the profile
`{ndc d, [7]}`, of length ≤ 5 and trivially descending. -/
theorem goal4_top5_desc_frequency_witness :
    (⟨"d", [7]⟩ : QuantityProfile) ∈
      (calculate_goal_4_common_quantities [⟨"c1", "1", "d", some 2, some 7⟩]).1 ∧
    ((⟨"d", [7]⟩ : QuantityProfile).most_prescribed_quantity.length ≤ 5 ∧
      List.Pairwise (fun a b : ℚ =>
          freqCount [⟨"c1", "1", "d", some 2, some 7⟩] (⟨"d", [7]⟩ : QuantityProfile).ndc b ≤
            freqCount [⟨"c1", "1", "d", some 2, some 7⟩] (⟨"d", [7]⟩ : QuantityProfile).ndc a)
        (⟨"d", [7]⟩ : QuantityProfile).most_prescribed_quantity) :=
  ⟨by decide,
    goal4_top5_desc_frequency [⟨"c1", "1", "d", some 2, some 7⟩] ⟨"d", [7]⟩ (by decide)⟩

/-- Claim C10: the valid-claim derivation duplicated in
`calculate_goal_2_metrics` (lines 44-50) and
`calculate_goal_3_recommendations` (lines 78-83) is extensionally equal:
on every input the two pipelines produce the same
filtered-and-derived claim set. -/
theorem valid_claim_derivations_agree (claims : List Claim) (revertIds : List String) :
    goal2ValidClaims claims revertIds = goal3ValidClaims claims revertIds :=
  rfl

end PharmaPipeline
